import Mathlib

/-!
Shallow embedding of `src/lib/api.js` (a small Sonarr REST client).

The JavaScript source has two parts:
  * a constructor that validates options and caches a base URL, and
  * one request builder and dispatcher shared by get, post, put and delete.

JavaScript runtime values that the code actually manipulates are modelled
by a small inductive type `JVal` (scalars) plus flat objects as
association lists `List (String × JVal)`.  JavaScript `undefined` and
`null` are distinct constructors, because the code distinguishes them
(`=== undefined` checks, `!== null` checks, `typeof null = "object"`).
Thrown `TypeError`s become `Except.error`; promise resolution values are
ordinary returned values.
-/

/-- JavaScript scalar values reachable in this code base. -/
inductive JVal where
  | undef
  | null
  | jBool (b : Bool)
  | jNum (n : Int)
  | jStr (s : String)
deriving DecidableEq, Repr

/-- JavaScript truthiness of a scalar. -/
def JVal.truthy : JVal → Bool
  | .undef => false
  | .null => false
  | .jBool b => b
  | .jNum n => n != 0
  | .jStr s => s != ""

/-- JavaScript string coercion of a scalar, as produced by string
concatenation and by `encodeURIComponent`. -/
def JVal.toJsString : JVal → String
  | .undef => "undefined"
  | .null => "null"
  | .jBool b => if b then "true" else "false"
  | .jNum n => toString n
  | .jStr s => s

/-- An argument that may be either a scalar or a flat object; used for the
`parameters` argument of the verb methods, whose `typeof` is inspected. -/
inductive JArg where
  | prim (v : JVal)
  | jObj (fields : List (String × JVal))
deriving DecidableEq, Repr

/-- JavaScript `typeof` on a `JArg`.  Note `typeof null = "object"`. -/
def JArg.typeof : JArg → String
  | .prim .undef => "undefined"
  | .prim .null => "object"
  | .prim (.jBool _) => "boolean"
  | .prim (.jNum _) => "number"
  | .prim (.jStr _) => "string"
  | .jObj _ => "object"

/-- JavaScript truthiness of a `JArg`.  Every object, including the empty
object, is truthy. -/
def JArg.truthy : JArg → Bool
  | .prim v => v.truthy
  | .jObj _ => true

/-- The field list of a `JArg`.  In `_request` the parameters value has
already passed the `typeof parameters === "object"` check and the
truthiness guard, so only objects ever reach the place where this is
used; the `prim` case is dead there. -/
def JArg.fields : JArg → List (String × JVal)
  | .prim _ => []
  | .jObj fs => fs

/-- JavaScript property read `o[k]` on a flat object: `undefined` when the
key is absent. -/
def getField (o : List (String × JVal)) (k : String) : JVal :=
  match o.find? (fun p => p.1 == k) with
  | none => JVal.undef
  | some p => p.2

/-- A thrown JavaScript error.  The source only ever throws `TypeError`. -/
inductive JsError where
  | typeError (msg : String)
deriving DecidableEq, Repr

/-- A JavaScript number restricted to what the port computation can
produce: an integer or `NaN` (`parseInt` of a non-numeric string). -/
inductive JsNumber where
  | int (n : Int)
  | nan
deriving DecidableEq, Repr

/-- String form of a `JsNumber`, as used by string concatenation when the
base URL is assembled (`NaN` renders as `"NaN"`). -/
def JsNumber.render : JsNumber → String
  | .int n => toString n
  | .nan => "NaN"

/-- The `port` option as passed by a caller: absent, a number, or a
string. -/
inductive PortOpt where
  | absent
  | num (n : Int)
  | str (s : String)
deriving DecidableEq, Repr

def isDecDigit (c : Char) : Bool := 48 ≤ c.toNat && c.toNat ≤ 57

def isHexDig (c : Char) : Bool :=
  (48 ≤ c.toNat && c.toNat ≤ 57) || (65 ≤ c.toNat && c.toNat ≤ 70) ||
    (97 ≤ c.toNat && c.toNat ≤ 102)

def hexDigitVal (c : Char) : Nat :=
  if 48 ≤ c.toNat && c.toNat ≤ 57 then c.toNat - 48
  else if 65 ≤ c.toNat && c.toNat ≤ 70 then c.toNat - 55
  else c.toNat - 87

def decValue (cs : List Char) : Nat :=
  cs.foldl (fun a c => a * 10 + (c.toNat - 48)) 0

def hexValue (cs : List Char) : Nat :=
  cs.foldl (fun a c => a * 16 + hexDigitVal c) 0

/-- JavaScript `parseInt(s)` with no radix argument: skip leading
whitespace, read an optional sign, then either a `0x`-prefixed hexadecimal
or a decimal digit run; `NaN` when no digit follows.  `parseInt` never
throws, which is why the `try`/`catch` around it in the constructor is
dead code. -/
def parseIntJs (s : String) : JsNumber :=
  let cs := s.toList.dropWhile
    (fun c => c == ' ' || c == '\t' || c == '\n' || c == '\r')
  let signed : Int × List Char :=
    match cs with
    | c :: t => if c == '-' then (-1, t) else if c == '+' then (1, t) else (1, cs)
    | [] => (1, [])
  let sign := signed.1
  let cs := signed.2
  let isHexForm : Bool :=
    match cs with
    | a :: b :: _ => a == '0' && (b == 'x' || b == 'X')
    | _ => false
  if isHexForm then
    let ds := (cs.drop 2).takeWhile isHexDig
    if ds.isEmpty then .nan else .int (sign * (hexValue ds : Int))
  else
    let ds := cs.takeWhile isDecDigit
    if ds.isEmpty then .nan else .int (sign * (decValue ds : Int))

/-- Port resolution in the constructor, composing
`this.port = options.port || 8989` with the subsequent
`this.port = parseInt(this.port)` branch for non-number values.  The
falsy number `0` and the falsy string `""` fall back to the default; a
non-empty string is parsed, and a failed parse yields `NaN` (it does not
throw). -/
def resolvePort : PortOpt → JsNumber
  | .absent => .int 8989
  | .num 0 => .int 8989
  | .num n => .int n
  | .str "" => .int 8989
  | .str s => parseIntJs s

/-- Truthiness of an optional string option (`undefined` and `""` are
falsy). -/
def strTruthy : Option String → Bool
  | none => false
  | some s => s != ""

/-- `options.username || null` and `options.password || null`: a falsy
string collapses to `null`. -/
def orNull : Option String → Option String
  | none => none
  | some s => if s == "" then none else some s

/-- Whether `s` starts with `lead` (character-wise, like
`String.startsWith`, but stated over the character lists so that it
evaluates by definitional reduction). -/
def strHasLead (lead s : String) : Bool := lead.toList.isPrefixOf s.toList

/-- The first `n` characters of `s` removed (like `String.drop`). -/
def strDropChars (s : String) (n : Nat) : String := String.mk (s.toList.drop n)

/-- `this.hostname.replace(/^https?:\x2f\x2f/, "")`: strip one leading
lowercase scheme.  The regex has no `i` flag, so the match is
case-sensitive. -/
def stripScheme (s : String) : String :=
  if strHasLead "http://" s then strDropChars s 7
  else if strHasLead "https://" s then strDropChars s 8
  else s

def isLowerAlnum (c : Char) : Bool :=
  (97 ≤ c.toNat && c.toNat ≤ 122) || (48 ≤ c.toNat && c.toNat ≤ 57)

/-- `this.apiKey.search(/[^a-z0-9]\x7b32\x7d/) !== -1`: the regex matches
anywhere in the key a run of 32 consecutive characters that are each
outside `[a-z0-9]`.  A key with fewer than 32 consecutive invalid
characters is accepted. -/
def hasBadRun32 : List Char → Bool
  | [] => false
  | c :: cs =>
      (((c :: cs).take 32).length == 32 &&
        ((c :: cs).take 32).all (fun x => !isLowerAlnum x)) || hasBadRun32 cs

def apiKeyInvalid (key : String) : Bool := hasBadRun32 key.toList

/-- Normalization of `urlBase`: when truthy availability and the first
character is not a slash, prepend one (`charAt(0)` of `""` is `""`, and
the falsy guard skips the empty string anyway). -/
def normalizeUrlBase : Option String → Option String
  | none => none
  | some s => if s != "" && !(strHasLead "/" s) then some ("/" ++ s) else some s

/-- `if (this.urlBase) serverUrl = serverUrl + this.urlBase`: the piece of
the base URL contributed by `urlBase` (nothing when falsy). -/
def urlBasePart : Option String → String
  | none => ""
  | some s => if s == "" then "" else s

/-- The options object accepted by the constructor.  Fields the caller
omits are `none` (JavaScript `undefined`).  Option values of other
runtime types than the ones modelled here do not occur in the spec or the
claims. -/
structure Options where
  hostname : Option String := none
  port : PortOpt := .absent
  apiKey : Option String := none
  urlBase : Option String := none
  ssl : Option Bool := none
  username : Option String := none
  password : Option String := none
deriving DecidableEq, Repr

/-- The state of a constructed client: exactly the `this.*` fields the
constructor assigns. -/
structure SonarrAPI where
  hostname : String
  port : JsNumber
  apiKey : String
  urlBase : Option String
  ssl : Bool
  username : Option String
  password : Option String
  auth : Bool
  serverApi : String
deriving DecidableEq, Repr

/-- The successful branch of the constructor: the field values after all
assignments.  The intermediate mutation order in the source cannot be
observed here because, after the hostname and apiKey checks are passed,
no remaining step can throw (`parseInt` never throws). -/
def SonarrAPI.mkConfig (o : Options) (key : String) : SonarrAPI :=
  let username := orNull o.username
  let password := orNull o.password
  let hostname := stripScheme (o.hostname.getD "")
  let port := resolvePort o.port
  let urlBase := normalizeUrlBase o.urlBase
  let ssl := o.ssl.getD false
  let serverUrl :=
    "http" ++ (if ssl then "s" else "") ++ "://" ++ hostname ++ ":" ++ port.render
  { hostname := hostname
    port := port
    apiKey := key
    urlBase := urlBase
    ssl := ssl
    username := username
    password := password
    auth := username.isSome && password.isSome
    serverApi := serverUrl ++ urlBasePart urlBase ++ "/api/" }

/-- `new SonarrAPI(options)`.  Checks in source order: falsy hostname
throws; then the apiKey regex test runs (reading `search` on an absent
apiKey itself throws a `TypeError`); every other step is total. -/
def SonarrAPI.construct (o : Options) : Except JsError SonarrAPI :=
  if strTruthy o.hostname then
    match o.apiKey with
    | none => .error (.typeError "apiKey is undefined")
    | some key =>
        if apiKeyInvalid key then .error (.typeError "API Key is an invalid")
        else .ok (SonarrAPI.mkConfig o key)
  else .error (.typeError "Hostname is empty")

/-! ## Query-string serialization and headers -/

/-- Characters `encodeURIComponent` leaves unescaped: ASCII letters,
digits, and (by code point) `- _ . ! ~ * ( )` and the apostrophe (39). -/
def uriUnreserved (c : Char) : Bool :=
  (65 ≤ c.toNat && c.toNat ≤ 90) || (97 ≤ c.toNat && c.toNat ≤ 122) ||
    (48 ≤ c.toNat && c.toNat ≤ 57) ||
    [45, 95, 46, 33, 126, 42, 39, 40, 41].contains c.toNat

/-- UTF-8 byte sequence of one character, as byte values. -/
def utf8Bytes (c : Char) : List Nat :=
  let n := c.toNat
  if n < 128 then [n]
  else if n < 2048 then [192 + n / 64, 128 + n % 64]
  else if n < 65536 then [224 + n / 4096, 128 + (n / 64) % 64, 128 + n % 64]
  else [240 + n / 262144, 128 + (n / 4096) % 64, 128 + (n / 64) % 64, 128 + n % 64]

def hexDigitChar (n : Nat) : Char :=
  if n < 10 then Char.ofNat (48 + n) else Char.ofNat (55 + n)

/-- Percent escape of one byte, uppercase hexadecimal. -/
def byteHex (b : Nat) : String :=
  "%" ++ String.mk [hexDigitChar (b / 16), hexDigitChar (b % 16)]

def encodeChar (c : Char) : String :=
  if uriUnreserved c then String.mk [c]
  else String.join ((utf8Bytes c).map byteHex)

/-- JavaScript `encodeURIComponent` on a string. -/
def encodeURIComponent (s : String) : String :=
  String.join (s.toList.map encodeChar)

/-- One mapped entry of `jsonToQueryString`.  The callback returns
`undefined` for a `null` value, and `Array.join` renders that slot as the
empty string, so a `null`-valued key keeps its position but contributes
no `key=value` text. -/
def querySegment (kv : String × JVal) : String :=
  match kv.2 with
  | .null => ""
  | v => encodeURIComponent kv.1 ++ "=" ++ encodeURIComponent v.toJsString

/-- `jsonToQueryString(json)`: a leading `?`, then the mapped entries
joined with `&`.  Objects are modelled as association lists in key
order. -/
def jsonToQueryString (ps : List (String × JVal)) : String :=
  "?" ++ String.intercalate "&" (ps.map querySegment)

/-- Base64 alphabet lookup. -/
def base64Char (n : Nat) : Char :=
  (("ABCDEFGHIJKLMNOPQRSTUVWXYZabcdefghijklmnopqrstuvwxyz0123456789+/").toList).getD n (Char.ofNat 65)

def base64Chunk : List Nat → String
  | [a, b, c] =>
      String.mk [base64Char (a / 4), base64Char (a % 4 * 16 + b / 16),
        base64Char (b % 16 * 4 + c / 64), base64Char (c % 64)]
  | [a, b] =>
      String.mk [base64Char (a / 4), base64Char (a % 4 * 16 + b / 16),
        base64Char (b % 16 * 4)] ++ "="
  | [a] => String.mk [base64Char (a / 4), base64Char (a % 4 * 16)] ++ "=="
  | _ => ""

def chunk3 : List Nat → List (List Nat)
  | [] => []
  | [a] => [[a]]
  | [a, b] => [[a, b]]
  | a :: b :: c :: rest => [a, b, c] :: chunk3 rest

/-- Base64 encoding of a byte list, as `Buffer.toString("base64")`. -/
def base64Encode (bytes : List Nat) : String :=
  String.join ((chunk3 bytes).map base64Chunk)

/-- UTF-8 bytes of a string, as `new Buffer(string)` stores them. -/
def strUtf8 (s : String) : List Nat :=
  (s.toList.map utf8Bytes).flatten

/-! ## Request building and dispatch -/

/-- The actions object each verb method hands to `_request`. -/
structure Actions where
  relativeUrl : JVal
  method : String
  parameters : JArg
deriving DecidableEq, Repr

/-- The `json` option of the transport request: `true` for GET, the
parameters payload for POST, PUT and DELETE. -/
inductive JsonOpt where
  | flag (b : Bool)
  | payload (p : JArg)
deriving DecidableEq, Repr

/-- The options object handed to the transport (`request-promise`). -/
structure RequestOptions where
  url : String
  headers : List (String × String)
  strictSSLDisabled : Bool
  method : String
  json : JsonOpt
deriving DecidableEq, Repr

/-- URL assembly in `_request`: base URL plus the relative URL (string
concatenation coerces a non-string), plus the query string when the
parameters value is truthy and the method is GET.  The empty object is
truthy, so it still appends `jsonToQueryString({})`, which is a bare
`?`. -/
def SonarrAPI.buildApiUrl (self : SonarrAPI) (a : Actions) : String :=
  let apiUrl := self.serverApi ++ a.relativeUrl.toJsString
  if a.parameters.truthy && a.method == "GET" then
    apiUrl ++ jsonToQueryString a.parameters.fields
  else apiUrl

/-- Header assembly in `_request`: the API key always; `Accept` for GET
and `Content-Type` otherwise; a basic `Authorization` header exactly when
`this.auth` is set. -/
def SonarrAPI.buildHeaders (self : SonarrAPI) (method : String) : List (String × String) :=
  [("X-API-KEY", self.apiKey)] ++
    (if method == "GET" then [("Accept", "application/json")]
     else [("Content-Type", "application/json")]) ++
    (if self.auth then
      [("Authorization", "Basic " ++
        base64Encode (strUtf8 (self.username.getD "" ++ ":" ++ self.password.getD "")))]
     else [])

/-- The full options object `_request` passes to the transport. -/
def SonarrAPI.buildRequest (self : SonarrAPI) (a : Actions) : RequestOptions :=
  { url := self.buildApiUrl a
    headers := self.buildHeaders a.method
    strictSSLDisabled := self.ssl
    method := a.method
    json :=
      if ["POST", "PUT", "DELETE"].contains a.method then .payload a.parameters
      else .flag true }

/-- A transport failure, shaped as the external collaborator contract
specifies: the rejection value carries `response.body`, a decoded JSON
object. -/
structure TransportFailure where
  body : List (String × JVal)
deriving DecidableEq, Repr

/-- What a call to a verb method ultimately resolves to. -/
inductive Outcome where
  | success (body : List (String × JVal))
  | errorBody (body : List (String × JVal))
  | failureObject (e : TransportFailure)
deriving DecidableEq, Repr

/-- The external HTTP transport: one request in, a decoded body or a
failure out. -/
abbrev Transport := RequestOptions → Except TransportFailure (List (String × JVal))

/-- The `catch` handler of `_request`: a truthy `error` field strictly
equal to `"Unauthorized"` resolves to the body; anything else resolves to
the failure object itself.  Either way the promise resolves. -/
def handleFailure (e : TransportFailure) : Outcome :=
  let err := getField e.body "error"
  if err.truthy && err == JVal.jStr "Unauthorized" then .errorBody e.body
  else .failureObject e

/-- `_request` composed with the transport: build the request, run it,
pass a success through unchanged (the interposed `console.log` and the
identity `then` in each verb are unobservable here), and route a failure
through the `catch` handler. -/
def SonarrAPI.dispatch (t : Transport) (self : SonarrAPI) (a : Actions) : Outcome :=
  match t (self.buildRequest a) with
  | .ok body => .success body
  | .error e => handleFailure e

/-! ## Verb methods -/

/-- The shared body of `get`, `post`, `put` and `delete`.  A defaulted
parameters argument (absent or `undefined`) becomes the empty object
before the checks run; then an `undefined` relative URL throws, then a
parameters value whose `typeof` is not `"object"` throws. -/
def verbBody (method : String) (relativeUrl : JVal) (parameters : JArg) :
    Except JsError Actions :=
  let parameters := if parameters == JArg.prim JVal.undef then .jObj [] else parameters
  if relativeUrl == JVal.undef then .error (.typeError "Relative URL is not set")
  else if parameters.typeof != "object" then
    .error (.typeError "Parameters must be type object")
  else .ok { relativeUrl := relativeUrl, method := method, parameters := parameters }

def SonarrAPI.get (_self : SonarrAPI) (relativeUrl : JVal) (parameters : JArg) :
    Except JsError Actions :=
  verbBody "GET" relativeUrl parameters

def SonarrAPI.post (_self : SonarrAPI) (relativeUrl : JVal) (parameters : JArg) :
    Except JsError Actions :=
  verbBody "POST" relativeUrl parameters

def SonarrAPI.put (_self : SonarrAPI) (relativeUrl : JVal) (parameters : JArg) :
    Except JsError Actions :=
  verbBody "PUT" relativeUrl parameters

def SonarrAPI.delete (_self : SonarrAPI) (relativeUrl : JVal) (parameters : JArg) :
    Except JsError Actions :=
  verbBody "DELETE" relativeUrl parameters

/-- A verb method run end to end: the synchronous checks, then — only
when they pass — one dispatch through the transport.  An `Except.error`
result means the method threw before any request was issued. -/
def SonarrAPI.callVerb (t : Transport) (self : SonarrAPI) (method : String)
    (relativeUrl : JVal) (parameters : JArg) : Except JsError Outcome :=
  match verbBody method relativeUrl parameters with
  | .error e => .error e
  | .ok a => .ok (SonarrAPI.dispatch t self a)

/-! ## Concrete example values used by the claim theorems -/

/-- A well-formed 32-character lowercase alphanumeric key used by the
example configurations. -/
def demoKey : String := "a1b2c3d4e5f6a7b8c9d0e1f2a3b4c5d6"

/-- The client constructed from hostname `example.com` and `demoKey` with
all other options defaulted. -/
def demoCfg : SonarrAPI :=
  { hostname := "example.com", port := .int 8989, apiKey := demoKey, urlBase := none,
    ssl := false, username := none, password := none, auth := false,
    serverApi := "http://example.com:8989/api/" }

def optsC1 : Options :=
  { hostname := some "example.com", apiKey := some "Aa1b2c3d4e5f6a7b8c9d0e1f2a3b4c5d6" }

def cfgC1 : SonarrAPI :=
  { hostname := "example.com", port := .int 8989,
    apiKey := "Aa1b2c3d4e5f6a7b8c9d0e1f2a3b4c5d6", urlBase := none, ssl := false,
    username := none, password := none, auth := false,
    serverApi := "http://example.com:8989/api/" }

def optsC5 : Options :=
  { hostname := some "example.com", port := .str "abc", apiKey := some demoKey }

def cfgC5 : SonarrAPI :=
  { hostname := "example.com", port := .nan, apiKey := demoKey, urlBase := none,
    ssl := false, username := none, password := none, auth := false,
    serverApi := "http://example.com:NaN/api/" }

def optsC6 : Options := { hostname := some "HTTPS://example.com", apiKey := some demoKey }

def cfgC6 : SonarrAPI :=
  { hostname := "HTTPS://example.com", port := .int 8989, apiKey := demoKey,
    urlBase := none, ssl := false, username := none, password := none, auth := false,
    serverApi := "http://HTTPS://example.com:8989/api/" }

def optsC6w : Options := { hostname := some "https://example.com", apiKey := some demoKey }

def cfgC6w : SonarrAPI :=
  { hostname := "example.com", port := .int 8989, apiKey := demoKey, urlBase := none,
    ssl := false, username := none, password := none, auth := false,
    serverApi := "http://example.com:8989/api/" }

def failC2 : TransportFailure := ⟨[("error", JVal.jStr "Unauthorized")]⟩

def transC2 : Transport := fun _ => .error failC2

def actC2 : Actions := { relativeUrl := .jStr "series", method := "GET", parameters := .jObj [] }

/-- Lookup of a header value by name in an assembled header list. -/
def hlookup (hs : List (String × String)) (k : String) : Option String :=
  match hs.find? (fun p => p.1 == k) with
  | some p => some p.2
  | none => none

def optsC4 : Options :=
  { hostname := some "example.com", port := .num 7878, apiKey := some demoKey,
    urlBase := some "sonarr", ssl := some true }

def cfgC4 : SonarrAPI :=
  { hostname := "example.com", port := .int 7878, apiKey := demoKey,
    urlBase := some "/sonarr", ssl := true, username := none, password := none,
    auth := false, serverApi := "https://example.com:7878/sonarr/api/" }

def optsC7 : Options :=
  { hostname := some "example.com", apiKey := some demoKey,
    username := some "user", password := some "pass" }

def cfgC7 : SonarrAPI :=
  { hostname := "example.com", port := .int 8989, apiKey := demoKey, urlBase := none,
    ssl := false, username := some "user", password := some "pass", auth := true,
    serverApi := "http://example.com:8989/api/" }

def actC7 : Actions := { relativeUrl := .jStr "series", method := "GET", parameters := .jObj [] }

/-! ## Helper lemmas -/

theorem str_append_assoc (a b c : String) : a ++ b ++ c = a ++ (b ++ c) := by
  obtain ⟨la⟩ := a
  obtain ⟨lb⟩ := b
  obtain ⟨lc⟩ := c
  show String.mk (la ++ lb ++ lc) = String.mk (la ++ (lb ++ lc))
  rw [List.append_assoc]

theorem str_empty_append (s : String) : "" ++ s = s := by
  obtain ⟨l⟩ := s
  show String.mk ([] ++ l) = String.mk l
  rw [List.nil_append]

theorem http_s_append (r : String) : "http" ++ ("s" ++ r) = "https" ++ r := by
  rw [← str_append_assoc]
  exact congrArg (fun t => t ++ r) (by decide : ("http" : String) ++ "s" = "https")

theorem https_scheme_append (r : String) : "https" ++ ("://" ++ r) = "https://" ++ r := by
  rw [← str_append_assoc]
  exact congrArg (fun t => t ++ r) (by decide : ("https" : String) ++ "://" = "https://")

theorem http_scheme_append (r : String) : "http" ++ ("://" ++ r) = "http://" ++ r := by
  rw [← str_append_assoc]
  exact congrArg (fun t => t ++ r) (by decide : ("http" : String) ++ "://" = "http://")

theorem slash_append_ne (s : String) : (("/" ++ s) == "") = false := by
  obtain ⟨l⟩ := s
  apply beq_eq_false_iff_ne.mpr
  intro h
  have hd : List.cons '/' l = [] := congrArg String.data h
  exact List.noConfusion hd

/-- Successful construction forces a truthy hostname and a present apiKey
that passes the regex test, and the resulting state is `mkConfig`. -/
theorem construct_ok_elim {o : Options} {cfg : SonarrAPI}
    (h : SonarrAPI.construct o = .ok cfg) :
    strTruthy o.hostname = true ∧
      ∃ key, o.apiKey = some key ∧ apiKeyInvalid key = false ∧
        cfg = SonarrAPI.mkConfig o key := by
  unfold SonarrAPI.construct at h
  split at h
  case isTrue hh =>
    split at h
    case h_1 => exact absurd h (by simp)
    case h_2 key hkey =>
      split at h
      case isTrue => exact absurd h (by simp)
      case isFalse hbad =>
        injection h with h
        exact ⟨hh, key, hkey, by simpa using hbad, h.symm⟩
  case isFalse => exact absurd h (by simp)

/-- When an optional credential is not the empty string, the `|| null`
collapse leaves it unchanged. -/
theorem orNull_id {x : Option String} (h : x ≠ some "") : orNull x = x := by
  cases x with
  | none => rfl
  | some s =>
      have hs : s ≠ "" := fun he => h (by rw [he])
      simp [orNull, hs]

/-- Claim C1: the spec demands rejection of every apiKey containing any
character outside `[a-z0-9]`.  The code does not do that: the regex
`[^a-z0-9]` quantified by 32 only fires on 32 consecutive invalid
characters, so a key with an uppercase letter (here a leading `A`)
constructs successfully.  The intended acceptance of a 32-character
lowercase alphanumeric key does hold, and a key made of 32 consecutive
`*` characters is what the test actually rejects. -/
theorem claim_C1_apiKey_check_is_run_based :
    ("Aa1b2c3d4e5f6a7b8c9d0e1f2a3b4c5d6".toList.any (fun c => !isLowerAlnum c)) = true
    ∧ SonarrAPI.construct optsC1 = Except.ok cfgC1
    ∧ SonarrAPI.construct { hostname := some "example.com", apiKey := some demoKey } =
        Except.ok demoCfg
    ∧ apiKeyInvalid (String.mk (List.replicate 32 (Char.ofNat 42))) = true :=
  ⟨by decide, rfl, rfl, by decide⟩

/-- Claim C5: the spec says an unparsable port fails construction with a
ConfigError.  In the code `parseInt` never throws, so the `catch` branch
is dead: a non-numeric port string yields `NaN`, construction succeeds,
and the cached base URL contains `:NaN`. -/
theorem claim_C5_invalid_port_does_not_throw :
    parseIntJs "abc" = .nan ∧ SonarrAPI.construct optsC5 = Except.ok cfgC5 :=
  ⟨rfl, rfl⟩

/-- Claim C6 counterexample: the claim says scheme stripping is
case-insensitive, so hostname `HTTPS://example.com` would store
`example.com`.  The regex has no `i` flag: the stored hostname keeps the
uppercase scheme. -/
theorem claim_C6_counterexample :
    SonarrAPI.construct optsC6 = Except.ok cfgC6 ∧ cfgC6.hostname ≠ "example.com" :=
  ⟨rfl, by decide⟩

/-- Claim C6 as amended: a missing or empty hostname never constructs
(success forces a truthy hostname), the stored hostname is the supplied
one with a leading lowercase `http://` or `https://` stripped, the
lowercase example is stripped, and the uppercase variant is left
unchanged (the strip is case-sensitive). -/
theorem claim_C6_hostname_normalization (o : Options) (cfg : SonarrAPI)
    (hok : SonarrAPI.construct o = .ok cfg) :
    cfg.hostname = stripScheme (o.hostname.getD "")
    ∧ o.hostname ≠ none ∧ o.hostname ≠ some ""
    ∧ stripScheme "https://example.com" = "example.com"
    ∧ stripScheme "HTTPS://example.com" = "HTTPS://example.com" := by
  obtain ⟨hh, key, hkey, hbad, rfl⟩ := construct_ok_elim hok
  refine ⟨rfl, ?_, ?_, by decide, by decide⟩
  · intro hn; rw [hn] at hh; simp [strTruthy] at hh
  · intro hn; rw [hn] at hh; simp [strTruthy] at hh

/-- Claim C6 witness: the amended statement applied to the concrete
construction from hostname `https://example.com`. -/
theorem claim_C6_witness :
    cfgC6w.hostname = stripScheme (optsC6w.hostname.getD "")
    ∧ optsC6w.hostname ≠ none ∧ optsC6w.hostname ≠ some ""
    ∧ stripScheme "https://example.com" = "example.com"
    ∧ stripScheme "HTTPS://example.com" = "HTTPS://example.com" :=
  claim_C6_hostname_normalization optsC6w cfgC6w rfl

/-- Claim C3 counterexample: the claim says the query string is appended
iff the parameters mapping is non-empty, so a GET with an empty mapping
would produce a URL with no `?`.  An empty object is truthy, so the code
appends `jsonToQueryString({})`, a bare `?`. -/
theorem claim_C3_counterexample :
    SonarrAPI.buildApiUrl demoCfg
        { relativeUrl := .jStr "series", method := "GET", parameters := .jObj [] } ≠
      demoCfg.serverApi ++ "series"
    ∧ SonarrAPI.buildApiUrl demoCfg
        { relativeUrl := .jStr "series", method := "GET", parameters := .jObj [] } =
      "http://example.com:8989/api/series?" :=
  ⟨by decide, by decide⟩

/-- Claim C3 as amended: for GET the target URL is the base URL plus the
relative path, and a query string (URL-encoded pairs joined with `&`,
prefixed with `?`) is appended whenever the parameters value is truthy —
which includes the empty object, yielding a bare `?` — and is not
appended when the parameters value is `null`; a GET on `series` with the
single parameter `id = 5` produces the query string `?id=5`. -/
theorem claim_C3_get_url (cfg : SonarrAPI) (rel : String) (ps : List (String × JVal)) :
    SonarrAPI.buildApiUrl cfg
        { relativeUrl := .jStr rel, method := "GET", parameters := .jObj ps } =
      cfg.serverApi ++ (rel ++ ("?" ++ String.intercalate "&" (ps.map querySegment)))
    ∧ SonarrAPI.buildApiUrl cfg
        { relativeUrl := .jStr rel, method := "GET", parameters := .prim .null } =
      cfg.serverApi ++ rel
    ∧ SonarrAPI.buildApiUrl cfg
        { relativeUrl := .jStr "series", method := "GET",
          parameters := .jObj [("id", JVal.jNum 5)] } =
      cfg.serverApi ++ "series?id=5" := by
  refine ⟨?_, ?_, ?_⟩
  · simp [SonarrAPI.buildApiUrl, jsonToQueryString, JArg.truthy, JArg.fields,
      JVal.toJsString, str_append_assoc]
  · simp [SonarrAPI.buildApiUrl, JArg.truthy, JVal.truthy, JVal.toJsString]
  · have h5 : ("series" : String) ++
        ("?" ++ String.intercalate "&" [querySegment ("id", JVal.jNum 5)]) =
        "series?id=5" := by decide
    simp [SonarrAPI.buildApiUrl, jsonToQueryString, JArg.truthy, JArg.fields,
      JVal.toJsString, str_append_assoc, h5]

/-- Claim C9: a parameter whose value is `null` contributes no encoded
`key=value` text but still occupies its position in the `&`-joined
string, leaving an empty segment; concretely
`{a: null, b: 1}` serializes to `?&b=1`. -/
theorem claim_C9_null_value_keeps_position (ks ts : List (String × JVal)) (k : String) :
    jsonToQueryString (ks ++ (k, JVal.null) :: ts) =
      "?" ++ String.intercalate "&" (ks.map querySegment ++ "" :: ts.map querySegment)
    ∧ querySegment (k, JVal.null) = ""
    ∧ jsonToQueryString [("a", JVal.null), ("b", JVal.jNum 1)] = "?&b=1" := by
  have hq : querySegment (k, JVal.null) = "" := rfl
  refine ⟨?_, hq, by decide⟩
  simp [jsonToQueryString, hq]

/-- Claim C2: a transport failure (shaped per the collaborator contract,
with a response body) whose body has `error = "Unauthorized"` resolves the
call to that body; every other transport failure resolves to the failure
object itself; in both cases the dispatch resolves rather than raising. -/
theorem claim_C2_failure_resolution (t : Transport) (cfg : SonarrAPI) (a : Actions)
    (e : TransportFailure) (h : t (cfg.buildRequest a) = .error e) :
    (getField e.body "error" = .jStr "Unauthorized" →
      SonarrAPI.dispatch t cfg a = .errorBody e.body)
    ∧ (getField e.body "error" ≠ .jStr "Unauthorized" →
      SonarrAPI.dispatch t cfg a = .failureObject e)
    ∧ (SonarrAPI.dispatch t cfg a = .errorBody e.body ∨
       SonarrAPI.dispatch t cfg a = .failureObject e) := by
  have hd : SonarrAPI.dispatch t cfg a = handleFailure e := by
    unfold SonarrAPI.dispatch
    rw [h]
  by_cases hc : getField e.body "error" = JVal.jStr "Unauthorized"
  · have he : handleFailure e = .errorBody e.body := by
      unfold handleFailure
      rw [hc]
      simp [JVal.truthy]
    exact ⟨fun _ => hd.trans he, fun hne => absurd hc hne, Or.inl (hd.trans he)⟩
  · have hb : (getField e.body "error" == JVal.jStr "Unauthorized") = false :=
      beq_eq_false_iff_ne.mpr hc
    have he : handleFailure e = .failureObject e := by
      unfold handleFailure
      simp [hb]
    exact ⟨fun hc2 => absurd hc2 hc, fun _ => hd.trans he, Or.inr (hd.trans he)⟩

/-- Claim C2 witness: the failure-resolution statement applied to a
concrete transport that always fails with an `Unauthorized` body. -/
theorem claim_C2_witness :
    (getField failC2.body "error" = .jStr "Unauthorized" →
      SonarrAPI.dispatch transC2 demoCfg actC2 = .errorBody failC2.body)
    ∧ (getField failC2.body "error" ≠ .jStr "Unauthorized" →
      SonarrAPI.dispatch transC2 demoCfg actC2 = .failureObject failC2)
    ∧ (SonarrAPI.dispatch transC2 demoCfg actC2 = .errorBody failC2.body ∨
       SonarrAPI.dispatch transC2 demoCfg actC2 = .failureObject failC2) :=
  claim_C2_failure_resolution transC2 demoCfg actC2 failC2 rfl

theorem verbBody_undef_url (m : String) (p : JArg) :
    verbBody m .undef p = .error (.typeError "Relative URL is not set") := by
  unfold verbBody
  simp

theorem verbBody_str_params (m rel s : String) :
    verbBody m (.jStr rel) (.prim (.jStr s)) =
      .error (.typeError "Parameters must be type object") := by
  unfold verbBody
  have h1 : (JArg.prim (JVal.jStr s) == JArg.prim JVal.undef) = false := by
    simp [beq_eq_false_iff_ne]
  have h2 : ((JVal.jStr rel) == JVal.undef) = false := by
    simp [beq_eq_false_iff_ne]
  simp [h1, h2, JArg.typeof]

theorem verbBody_null_url (m : String) (ps : List (String × JVal)) :
    verbBody m .null (.jObj ps) =
      .ok { relativeUrl := .null, method := m, parameters := .jObj ps } := by
  unfold verbBody
  have h1 : (JArg.jObj ps == JArg.prim JVal.undef) = false := by
    simp [beq_eq_false_iff_ne]
  have h2 : ((JVal.null) == JVal.undef) = false := by
    simp [beq_eq_false_iff_ne]
  simp [h1, h2, JArg.typeof]

theorem verbBody_null_params (m rel : String) :
    verbBody m (.jStr rel) (.prim .null) =
      .ok { relativeUrl := .jStr rel, method := m, parameters := .prim .null } := by
  unfold verbBody
  have h1 : (JArg.prim JVal.null == JArg.prim JVal.undef) = false := by
    simp [beq_eq_false_iff_ne]
  have h2 : ((JVal.jStr rel) == JVal.undef) = false := by
    simp [beq_eq_false_iff_ne]
  simp [h1, h2, JArg.typeof]

/-- Claim C8: every verb method throws a TypeError synchronously for a
missing (`undefined`) relative URL, and for a parameters argument whose
`typeof` is not `"object"` (here: a string); and in the end-to-end
composition the same errors come back for an arbitrary transport, whose
behaviour therefore cannot be involved — no request is issued. -/
theorem claim_C8_verb_preconditions (t : Transport) (cfg : SonarrAPI) (p : JArg)
    (rel s : String) :
    cfg.get .undef p = .error (.typeError "Relative URL is not set")
    ∧ cfg.post .undef p = .error (.typeError "Relative URL is not set")
    ∧ cfg.put .undef p = .error (.typeError "Relative URL is not set")
    ∧ cfg.delete .undef p = .error (.typeError "Relative URL is not set")
    ∧ cfg.get (.jStr rel) (.prim (.jStr s)) =
        .error (.typeError "Parameters must be type object")
    ∧ cfg.post (.jStr rel) (.prim (.jStr s)) =
        .error (.typeError "Parameters must be type object")
    ∧ cfg.put (.jStr rel) (.prim (.jStr s)) =
        .error (.typeError "Parameters must be type object")
    ∧ cfg.delete (.jStr rel) (.prim (.jStr s)) =
        .error (.typeError "Parameters must be type object")
    ∧ SonarrAPI.callVerb t cfg "GET" .undef p =
        .error (.typeError "Relative URL is not set")
    ∧ SonarrAPI.callVerb t cfg "GET" (.jStr rel) (.prim (.jStr s)) =
        .error (.typeError "Parameters must be type object") := by
  refine ⟨verbBody_undef_url "GET" p, verbBody_undef_url "POST" p,
    verbBody_undef_url "PUT" p, verbBody_undef_url "DELETE" p,
    verbBody_str_params "GET" rel s, verbBody_str_params "POST" rel s,
    verbBody_str_params "PUT" rel s, verbBody_str_params "DELETE" rel s, ?_, ?_⟩
  · unfold SonarrAPI.callVerb
    rw [verbBody_undef_url]
  · unfold SonarrAPI.callVerb
    rw [verbBody_str_params]

/-- Claim C10: the precondition checks are strict-equality and `typeof`
tests, so a `null` relative URL is not rejected (null is not strictly
equal to undefined) and a `null` parameters value passes the object test
(`typeof null` is `"object"`); both calls go on to build their actions
object and are dispatched through the transport. -/
theorem claim_C10_null_passes_checks (t : Transport) (cfg : SonarrAPI)
    (ps : List (String × JVal)) (rel : String) :
    cfg.get .null (.jObj ps) =
      .ok { relativeUrl := .null, method := "GET", parameters := .jObj ps }
    ∧ cfg.get (.jStr rel) (.prim .null) =
      .ok { relativeUrl := .jStr rel, method := "GET", parameters := .prim .null }
    ∧ cfg.delete .null (.jObj ps) =
      .ok { relativeUrl := .null, method := "DELETE", parameters := .jObj ps }
    ∧ cfg.delete (.jStr rel) (.prim .null) =
      .ok { relativeUrl := .jStr rel, method := "DELETE", parameters := .prim .null }
    ∧ SonarrAPI.callVerb t cfg "GET" .null (.jObj ps) =
      .ok (SonarrAPI.dispatch t cfg
        { relativeUrl := .null, method := "GET", parameters := .jObj ps })
    ∧ SonarrAPI.callVerb t cfg "GET" (.jStr rel) (.prim .null) =
      .ok (SonarrAPI.dispatch t cfg
        { relativeUrl := .jStr rel, method := "GET", parameters := .prim .null }) := by
  refine ⟨verbBody_null_url "GET" ps, verbBody_null_params "GET" rel,
    verbBody_null_url "DELETE" ps, verbBody_null_params "DELETE" rel, ?_, ?_⟩
  · unfold SonarrAPI.callVerb
    rw [verbBody_null_url]
  · unfold SonarrAPI.callVerb
    rw [verbBody_null_params]

/-- Claim C4: for every successfully constructed client (with a sensible
urlBase: not the empty string, whose falsy behaviour is out of the claim),
the cached base URL is scheme, host, port, optional base path, `/api/`;
the scheme is `https` exactly when the ssl option was enabled; the base
path component is present exactly when urlBase was supplied, normalized
to a leading slash. -/
theorem claim_C4_baseURL_shape (o : Options) (cfg : SonarrAPI)
    (hok : SonarrAPI.construct o = .ok cfg) (hub : o.urlBase ≠ some "") :
    cfg.serverApi =
      (if cfg.ssl then "https" else "http") ++
        ("://" ++ (cfg.hostname ++ (":" ++ (cfg.port.render ++
          (urlBasePart cfg.urlBase ++ "/api/")))))
    ∧ cfg.ssl = o.ssl.getD false
    ∧ (urlBasePart cfg.urlBase = "" ↔ o.urlBase = none)
    ∧ (o.urlBase = some "sonarr" → cfg.urlBase = some "/sonarr")
    ∧ (o.urlBase = some "/sonarr" → cfg.urlBase = some "/sonarr") := by
  obtain ⟨hh, key, hkey, hbad, rfl⟩ := construct_ok_elim hok
  refine ⟨?_, rfl, ?_, ?_, ?_⟩
  · cases hssl : o.ssl.getD false with
    | true =>
        simp [SonarrAPI.mkConfig, hssl, str_append_assoc, http_s_append,
          https_scheme_append]
    | false =>
        simp [SonarrAPI.mkConfig, hssl, str_append_assoc, str_empty_append,
          http_scheme_append]
  · cases huB : o.urlBase with
    | none => simp [SonarrAPI.mkConfig, huB, normalizeUrlBase, urlBasePart]
    | some s =>
        have hs : s ≠ "" := fun he => hub (by rw [huB, he])
        have hsb : (s == "") = false := beq_eq_false_iff_ne.mpr hs
        by_cases hsl : strHasLead "/" s = true
        · simp [SonarrAPI.mkConfig, huB, normalizeUrlBase, urlBasePart, hsl, hsb, hs]
        · have hslf : strHasLead "/" s = false := by
            revert hsl; cases strHasLead "/" s <;> simp
          have h2 := slash_append_ne s
          have h2ne : ("/" ++ s) ≠ "" := beq_eq_false_iff_ne.mp h2
          simp [SonarrAPI.mkConfig, huB, normalizeUrlBase, urlBasePart, hslf, hsb,
            hs, h2, h2ne]
  · intro h
    have hfield : (SonarrAPI.mkConfig o key).urlBase = normalizeUrlBase o.urlBase := rfl
    rw [hfield, h]
    decide
  · intro h
    have hfield : (SonarrAPI.mkConfig o key).urlBase = normalizeUrlBase o.urlBase := rfl
    rw [hfield, h]
    decide

/-- Claim C4 witness: the base-URL shape applied to the concrete
construction with ssl on, port 7878 and urlBase `sonarr`. -/
theorem claim_C4_witness :
    cfgC4.serverApi =
      (if cfgC4.ssl then "https" else "http") ++
        ("://" ++ (cfgC4.hostname ++ (":" ++ (cfgC4.port.render ++
          (urlBasePart cfgC4.urlBase ++ "/api/")))))
    ∧ cfgC4.ssl = optsC4.ssl.getD false
    ∧ (urlBasePart cfgC4.urlBase = "" ↔ optsC4.urlBase = none)
    ∧ (optsC4.urlBase = some "sonarr" → cfgC4.urlBase = some "/sonarr")
    ∧ (optsC4.urlBase = some "/sonarr" → cfgC4.urlBase = some "/sonarr") :=
  claim_C4_baseURL_shape optsC4 cfgC4 rfl (by decide)

/-- Claim C7: every dispatched request carries `X-API-KEY` with the
configured key; GET requests carry `Accept: application/json` and
non-GET requests carry `Content-Type: application/json`; a basic
`Authorization` header is present exactly when both username and password
were supplied at construction (credentials supplied as empty strings,
which the constructor collapses to null, are out of the claim). -/
theorem claim_C7_headers (o : Options) (cfg : SonarrAPI) (a : Actions)
    (hok : SonarrAPI.construct o = .ok cfg)
    (hu : o.username ≠ some "") (hp : o.password ≠ some "") :
    hlookup (cfg.buildRequest a).headers "X-API-KEY" = some cfg.apiKey
    ∧ (a.method = "GET" →
        hlookup (cfg.buildRequest a).headers "Accept" = some "application/json")
    ∧ (a.method ≠ "GET" →
        hlookup (cfg.buildRequest a).headers "Content-Type" = some "application/json")
    ∧ hlookup (cfg.buildRequest a).headers "Authorization" =
        (if o.username.isSome && o.password.isSome then
          some ("Basic " ++ base64Encode (strUtf8
            (o.username.getD "" ++ ":" ++ o.password.getD "")))
         else none) := by
  obtain ⟨hh, key, hkey, hbad, rfl⟩ := construct_ok_elim hok
  have hu' : orNull o.username = o.username := orNull_id hu
  have hp' : orNull o.password = o.password := orNull_id hp
  have hauth : (SonarrAPI.mkConfig o key).auth =
      (o.username.isSome && o.password.isSome) := by
    show ((orNull o.username).isSome && (orNull o.password).isSome) =
      (o.username.isSome && o.password.isSome)
    rw [hu', hp']
  have huser : (SonarrAPI.mkConfig o key).username = o.username := hu'
  have hpass : (SonarrAPI.mkConfig o key).password = o.password := hp'
  refine ⟨?_, ?_, ?_, ?_⟩
  · cases hg : (a.method == "GET") <;>
      cases hau : (SonarrAPI.mkConfig o key).auth <;>
        simp [SonarrAPI.buildRequest, SonarrAPI.buildHeaders, hlookup, hg, hau]
  · intro hm
    have hg : (a.method == "GET") = true := beq_iff_eq.mpr hm
    cases hau : (SonarrAPI.mkConfig o key).auth <;>
      simp [SonarrAPI.buildRequest, SonarrAPI.buildHeaders, hlookup, hg, hau]
  · intro hm
    have hg : (a.method == "GET") = false := beq_eq_false_iff_ne.mpr hm
    cases hau : (SonarrAPI.mkConfig o key).auth <;>
      simp [SonarrAPI.buildRequest, SonarrAPI.buildHeaders, hlookup, hg, hau]
  · rw [← hauth]
    cases hg : (a.method == "GET") <;>
      cases hau : (SonarrAPI.mkConfig o key).auth <;>
        simp [SonarrAPI.buildRequest, SonarrAPI.buildHeaders, hlookup, hg, hau,
          huser, hpass]

/-- Claim C7 witness: the header contract applied to the concrete client
with both credentials supplied, on a GET request. -/
theorem claim_C7_witness :
    hlookup (cfgC7.buildRequest actC7).headers "X-API-KEY" = some cfgC7.apiKey
    ∧ (actC7.method = "GET" →
        hlookup (cfgC7.buildRequest actC7).headers "Accept" = some "application/json")
    ∧ (actC7.method ≠ "GET" →
        hlookup (cfgC7.buildRequest actC7).headers "Content-Type" =
          some "application/json")
    ∧ hlookup (cfgC7.buildRequest actC7).headers "Authorization" =
        (if optsC7.username.isSome && optsC7.password.isSome then
          some ("Basic " ++ base64Encode (strUtf8
            (optsC7.username.getD "" ++ ":" ++ optsC7.password.getD "")))
         else none) :=
  claim_C7_headers optsC7 cfgC7 actC7 rfl (by decide) (by decide)
